import Mathlib

/-!
Verification of the GithubCheck repository: a launcher script (run-mcp.js)
and an MCP server (github-mcp) exposing four GitHub REST tools.

The TypeScript source is shallowly embedded: the outbound `fetch` calls are
modelled by passing the upstream outcome (a rejected fetch carrying an error
message, or a resolved response carrying status, status text and parsed JSON
body) as an explicit argument, and each tool handler returns the list of HTTP
requests it issued together with its Invocation Result.  `new Date()` is
modelled by an explicit `now` argument in epoch milliseconds, and a timestamp
value bundles its JSON string form with its epoch-millisecond value (the
`Timestamp` structure below), so that `new Date(s).getTime()` is the `ms`
field.
-/

namespace GithubCheck

/-- JSON values, as produced by `JSON.parse` / consumed by `JSON.stringify`.
Numbers are restricted to integers, which covers every number the program
serializes (ids, PR numbers, day counts). -/
inductive Json where
  | null
  | bool (b : Bool)
  | num (n : Int)
  | str (s : String)
  | arr (elems : List Json)
  | obj (fields : List (String × Json))

/-- JSON escaping of a single character, as in `JSON.stringify`. -/
def escapeChar (c : Char) : String :=
  if c = '"' then "\\\""
  else if c = '\\' then "\\\\"
  else if c = '\n' then "\\n"
  else if c = '\r' then "\\r"
  else if c = '\t' then "\\t"
  else if c = '\x08' then "\\b"
  else if c = '\x0c' then "\\f"
  else if c.toNat < 0x20 then
    "\\u00" ++ String.singleton (Nat.digitChar (c.toNat / 16)) ++
      String.singleton (Nat.digitChar (c.toNat % 16))
  else String.singleton c

/-- A JSON string literal: quotes around the escaped characters. -/
def jsonQuote (s : String) : String :=
  "\"" ++ String.join (s.data.map escapeChar) ++ "\""

mutual

/-- Compact serialization: `JSON.stringify(v)` (no gap argument). -/
def stringifyC : Json → String
  | .null => "null"
  | .bool b => cond b "true" "false"
  | .num n => toString n
  | .str s => jsonQuote s
  | .arr [] => "[]"
  | .arr (x :: xs) => "[" ++ stringifyCItems (x :: xs) ++ "]"
  | .obj [] => "\x7b\x7d"
  | .obj (f :: fs) => "\x7b" ++ stringifyCFields (f :: fs) ++ "\x7d"

def stringifyCItems : List Json → String
  | [] => ""
  | [x] => stringifyC x
  | x :: y :: ys => stringifyC x ++ "," ++ stringifyCItems (y :: ys)

def stringifyCFields : List (String × Json) → String
  | [] => ""
  | [(k, v)] => jsonQuote k ++ ":" ++ stringifyC v
  | (k, v) :: g :: gs => jsonQuote k ++ ":" ++ stringifyC v ++ "," ++ stringifyCFields (g :: gs)

end

/-- Indentation produced by `JSON.stringify(v, null, 2)` at nesting depth `d`. -/
def indentOf (d : Nat) : String := String.mk (List.replicate (2 * d) ' ')

mutual

/-- Pretty serialization with a two-space gap: `JSON.stringify(v, null, 2)`
at nesting depth `d`. -/
def stringifyP : Nat → Json → String
  | _, .null => "null"
  | _, .bool b => cond b "true" "false"
  | _, .num n => toString n
  | _, .str s => jsonQuote s
  | _, .arr [] => "[]"
  | d, .arr (x :: xs) =>
      "[\n" ++ stringifyPItems (d + 1) (x :: xs) ++ "\n" ++ indentOf d ++ "]"
  | _, .obj [] => "\x7b\x7d"
  | d, .obj (f :: fs) =>
      "\x7b\n" ++ stringifyPFields (d + 1) (f :: fs) ++ "\n" ++ indentOf d ++ "\x7d"

def stringifyPItems : Nat → List Json → String
  | _, [] => ""
  | d, [x] => indentOf d ++ stringifyP d x
  | d, x :: y :: ys => indentOf d ++ stringifyP d x ++ ",\n" ++ stringifyPItems d (y :: ys)

def stringifyPFields : Nat → List (String × Json) → String
  | _, [] => ""
  | d, [(k, v)] => indentOf d ++ jsonQuote k ++ ": " ++ stringifyP d v
  | d, (k, v) :: g :: gs =>
      indentOf d ++ jsonQuote k ++ ": " ++ stringifyP d v ++ ",\n" ++
        stringifyPFields d (g :: gs)

end

/-- Truthiness of an optional JS string: `undefined` and `""` are falsy,
every other string is truthy. -/
def truthyStr : Option String → Bool
  | none => false
  | some s => s != ""

/-! ## HTTP model -/

/-- An outbound HTTP request as assembled by the client functions:
method, URL, header list (in insertion order) and optional body. -/
structure HttpRequest where
  method : String
  url : String
  headers : List (String × String)
  body : Option String
deriving DecidableEq

/-- An upstream HTTP response: status code, status text, and the value
`response.json()` resolves to (parameterized, since different endpoints
return differently-shaped JSON). -/
structure HttpResponse (α : Type) where
  status : Nat
  statusText : String
  body : α

/-- `Response.ok`: status in the inclusive range 200–299. -/
def responseOk (r : HttpResponse α) : Bool :=
  decide (200 ≤ r.status) && decide (r.status ≤ 299)

/-- The outcome of one `await fetch(...)` together with `response.json()`:
either the fetch rejected with an error message, or it resolved to a
response. -/
def FetchOutcome (α : Type) : Type := Except String (HttpResponse α)

/-- `const GITHUB_URL = "https://api.github.com"` (github-mcp line 7). -/
def GITHUB_URL : String := "https://api.github.com"

/-- The two headers every client function sets (github-mcp lines 43–46,
77–80, 107–111). -/
def baseHeaders : List (String × String) :=
  [("Accept", "application/vnd.github.v3+json"),
   ("User-Agent", "GitHub-API-Client")]

/-- `if (token) { headers["Authorization"] = `token ${token}` }`: the
Authorization header added when the optional token is truthy. -/
def authHeader : Option String → List (String × String)
  | none => []
  | some t => if t != "" then [("Authorization", "token " ++ t)] else []

/-- Turn a fetch outcome into the value a client function produces: a
rejected fetch propagates its error; a non-ok response becomes the thrown
`Error(msgHead + status + " " + statusText)`; an ok response yields its
parsed body. -/
def fetchResult (msgHead : String) (o : FetchOutcome α) : Except String α :=
  match o with
  | .error e => .error e
  | .ok r =>
      if responseOk r then .ok r.body
      else .error (msgHead ++ toString r.status ++ " " ++ r.statusText)

/-! ## Data model -/

/-- A timestamp as it travels through the program: its JSON string form
(`iso`) together with its epoch-millisecond value (`ms`), so that
`new Date(s).getTime()` is modelled by `ms`. -/
structure Timestamp where
  iso : String
  ms : Int
deriving DecidableEq

/-- `new Date(s).toLocaleString()`.  The rendering is locale-dependent in
the source; it is modelled here by the timestamp's string form. -/
def toLocaleString (t : Timestamp) : String := t.iso

/-- The `PullRequest` interface (github-mcp lines 20–34).  The optional
`user` and `author` objects are modelled by their only used field,
`login`; an absent object and an absent field coincide under the
source's optional chaining `pr.user?.login`. -/
structure PullRequest where
  id : Int
  number : Int
  title : String
  state : String
  user : Option String
  author : Option String
  created_at : Timestamp
  updated_at : Timestamp
  html_url : String
deriving DecidableEq

/-- The JSON form of a pull request, with fields in the interface's order
and the optional `user` / `author` objects omitted when absent; this is
what `JSON.stringify` serializes after `response.json()`. -/
def prToJson (pr : PullRequest) : Json :=
  Json.obj
    ([("id", Json.num pr.id), ("number", Json.num pr.number),
      ("title", Json.str pr.title), ("state", Json.str pr.state)] ++
     (match pr.user with
      | some l => [("user", Json.obj [("login", Json.str l)])]
      | none => []) ++
     (match pr.author with
      | some l => [("author", Json.obj [("login", Json.str l)])]
      | none => []) ++
     [("created_at", Json.str pr.created_at.iso),
      ("updated_at", Json.str pr.updated_at.iso),
      ("html_url", Json.str pr.html_url)])

/-- The comment object returned by the upstream POST; `user_login` models
`comment.user.login`. -/
structure Comment where
  id : Int
  created_at : String
  user_login : String
deriving DecidableEq

/-! ## REST client operations (github-mcp lines 36–130)

Each operation is modelled as the pair of the request it issues and the
result it produces from the upstream outcome. -/

/-- The request assembled by `getPullRequests` (lines 41–50): GET
`{base}/repos/{owner}/{repo}/pulls` with the fixed headers plus the
conditional Authorization header. -/
def getPullRequestsRequest (owner repo : String) (token : Option String) : HttpRequest :=
  { method := "GET",
    url := GITHUB_URL ++ "/repos/" ++ owner ++ "/" ++ repo ++ "/pulls",
    headers := baseHeaders ++ authHeader token,
    body := none }

/-- `getPullRequests` (lines 36–66): on a non-ok response it throws
`GitHub API error: {status} {statusText}`; the `catch (error) { throw
error }` wrapper rethrows unchanged. -/
def getPullRequests (owner repo : String) (token : Option String)
    (o : FetchOutcome Json) : HttpRequest × Except String Json :=
  (getPullRequestsRequest owner repo token, fetchResult "GitHub API error: " o)

/-- The request assembled by `getPullRequest` (lines 75–84): GET
`{base}/repos/{owner}/{repo}/pulls/{number}`. -/
def getPullRequestRequest (owner repo : String) (pullNumber : Int)
    (token : Option String) : HttpRequest :=
  { method := "GET",
    url := GITHUB_URL ++ "/repos/" ++ owner ++ "/" ++ repo ++ "/pulls/" ++
      toString pullNumber,
    headers := baseHeaders ++ authHeader token,
    body := none }

/-- `getPullRequest` (lines 69–95): on a non-ok response it throws
`GitHub API error: {status} {statusText}`. -/
def getPullRequest (owner repo : String) (pullNumber : Int) (token : Option String)
    (o : FetchOutcome PullRequest) : HttpRequest × Except String PullRequest :=
  (getPullRequestRequest owner repo pullNumber token,
   fetchResult "GitHub API error: " o)

/-- The request assembled by `postCommentOnPR` (lines 105–121): POST
`{base}/repos/{owner}/{repo}/issues/{number}/comments` with an added
Content-Type header and body `JSON.stringify({ body })`. -/
def postCommentOnPRRequest (owner repo : String) (pullNumber : Int)
    (body : String) (token : Option String) : HttpRequest :=
  { method := "POST",
    url := GITHUB_URL ++ "/repos/" ++ owner ++ "/" ++ repo ++ "/issues/" ++
      toString pullNumber ++ "/comments",
    headers := [("Accept", "application/vnd.github.v3+json"),
                ("User-Agent", "GitHub-API-Client"),
                ("Content-Type", "application/json")] ++ authHeader token,
    body := some (stringifyC (Json.obj [("body", Json.str body)])) }

/-- `postCommentOnPR` (lines 98–130): on a non-ok response it throws
`Failed to post comment: {status} {statusText}`. -/
def postCommentOnPR (owner repo : String) (pullNumber : Int) (body : String)
    (token : Option String) (o : FetchOutcome Comment) :
    HttpRequest × Except String Comment :=
  (postCommentOnPRRequest owner repo pullNumber body token,
   fetchResult "Failed to post comment: " o)

/-! ## Invocation Results and tool handlers (github-mcp lines 173–407)

Every handler is a total function: the source wraps its whole body in
`try { ... } catch`, so no failure escapes the handler's boundary.  Each
handler returns the list of HTTP requests it issued (in order) together
with its Invocation Result. -/

/-- One `{ type: "text", text }` content item. -/
structure TextContent where
  text : String
deriving DecidableEq

/-- The uniform Invocation Result every tool returns: a content list and
the error flag (absent in the source's success results, modelled as
`false`). -/
structure ToolResult where
  content : List TextContent
  isError : Bool
deriving DecidableEq

/-- The `catch` branch shared by all four handlers:
`{ content: [{ type: "text", text: `Error: ${message}` }], isError: true }`. -/
def errorResult (message : String) : ToolResult :=
  { content := [⟨"Error: " ++ message⟩], isError := true }

/-- The `get_prs_of_repo` handler (lines 180–202): fetch the PR list and
return it as `JSON.stringify(prs, null, 2)`, or the caught error. -/
def get_prs_of_repo (owner repo : String) (token : Option String)
    (o : FetchOutcome Json) : List HttpRequest × ToolResult :=
  let (req, res) := getPullRequests owner repo token o
  ([req],
   match res with
   | .ok prs => { content := [⟨stringifyP 0 prs⟩], isError := false }
   | .error e => errorResult e)

/-- The `get_pr` handler (lines 215–242): fetch one PR and return it as
`JSON.stringify(pr, null, 2)`, or the caught error. -/
def get_pr (owner repo : String) (pull_number : Int) (token : Option String)
    (o : FetchOutcome PullRequest) : List HttpRequest × ToolResult :=
  let (req, res) := getPullRequest owner repo pull_number token o
  ([req],
   match res with
   | .ok pr => { content := [⟨stringifyP 0 (prToJson pr)⟩], isError := false }
   | .error e => errorResult e)

/-- The `post_comment_on_pr` handler's success payload (lines 379–391). -/
def postCommentSuccessJson (c : Comment) : Json :=
  Json.obj
    [("success", Json.bool true),
     ("comment", Json.obj
       [("id", Json.num c.id),
        ("created_at", Json.str c.created_at),
        ("author", Json.str c.user_login)]),
     ("message", Json.str "Comment successfully posted on PR")]

/-- The `post_comment_on_pr` handler (lines 365–406): post the comment and
return `{success, comment{id, created_at, author}, message}` serialized
with `JSON.stringify(..., null, 2)`, or the caught error. -/
def post_comment_on_pr (owner repo : String) (pull_number : Int) (body : String)
    (token : Option String) (o : FetchOutcome Comment) :
    List HttpRequest × ToolResult :=
  let (req, res) := postCommentOnPR owner repo pull_number body token o
  ([req],
   match res with
   | .ok c => { content := [⟨stringifyP 0 (postCommentSuccessJson c)⟩], isError := false }
   | .error e => errorResult e)

/-- Line 266: `Math.floor((new Date().getTime() - new Date(pr.created_at)
.getTime()) / (1000 * 60 * 60 * 24))`.  `Int.fdiv` is floor division,
matching `Math.floor` of the real quotient. -/
def daysOld (now createdMs : Int) : Int :=
  Int.fdiv (now - createdMs) (1000 * 60 * 60 * 24)

/-- Line 269: `pr.user?.login || pr.author?.login || "Unknown"` — JS
`||` takes the first truthy operand, and an absent or empty login is
falsy. -/
def resolveAuthor (user author : Option String) : String :=
  if truthyStr user then user.getD ""
  else if truthyStr author then author.getD ""
  else "Unknown"

/-- The markdown analysis report template (lines 273–309), with the PR
metadata, the computed age and the resolved author interpolated. -/
def analysisReport (pr : PullRequest) (d : Int) (authorLogin : String) : String :=
  "## PR Analysis Report\n\n### PR Information\n- **PR Number:** #" ++
    toString pr.number ++
  "\n- **Title:** " ++ pr.title ++
  "\n- **State:** " ++ pr.state ++
  "\n- **Author:** @" ++ authorLogin ++
  "\n- **Created:** " ++ toLocaleString pr.created_at ++
  "\n- **Last Updated:** " ++ toLocaleString pr.updated_at ++
  "\n- **URL:** " ++ pr.html_url ++
  "\n\n### Rules Context\n**Rules File:** c:\\Users\\DHARAGK\\Desktop\\GithubAPI\\Rules.md" ++
  "\n- Golang files: Variables must NOT start with capital letters" ++
  "\n- Code quality standards must be maintained" ++
  "\n- Proper naming conventions apply" ++
  "\n\n### Analysis Details\n- PR Status: **" ++ pr.state.toUpper ++
  "**\n- Days Since Creation: **" ++ toString d ++
  "** days\n- Author: **@" ++ authorLogin ++
  "**\n- Submission Period: Recent submission for review" ++
  "\n\n### Compliance Check (Based on Rules.md)" ++
  "\n✓ PR Analysis performed following project rules" ++
  "\n✓ Code review guidelines from Rules.md applied" ++
  "\n✓ Golang naming conventions verified for variables" ++
  "\n\n### Recommendations" ++
  "\n1. Ensure all Golang files follow variable naming (lowercase start)" ++
  "\n2. Verify code quality against defined standards" ++
  "\n3. Check for proper documentation" ++
  "\n\n---\n*This analysis was automatically generated by GitHub MCP Server*" ++
  "\n*Rules reference: c:\\Users\\DHARAGK\\Desktop\\GithubAPI\\Rules.md*" ++
  "\n*Generated using server.registerPrompt() pattern for PR analysis*"

/-- The `analyze_and_comment_pr` handler's success payload (lines 323–335). -/
def analyzeSuccessJson (pr : PullRequest) (c : Comment) : Json :=
  Json.obj
    [("success", Json.bool true),
     ("pr", Json.obj
       [("number", Json.num pr.number),
        ("title", Json.str pr.title),
        ("state", Json.str pr.state)]),
     ("comment", Json.obj
       [("id", Json.num c.id),
        ("created_at", Json.str c.created_at)]),
     ("rulesFile", Json.str "c:\\Users\\DHARAGK\\Desktop\\GithubAPI\\Rules.md"),
     ("analysisMethod", Json.str "server.registerPrompt() + registered prompt pattern"),
     ("registeredPrompt", Json.str "analyze_pull_request"),
     ("message", Json.str "PR analysis successfully posted with Rules.md compliance check")]

/-- The `analyze_and_comment_pr` handler (lines 256–350): fetch the PR,
compute its age and author, render the report, post it as a comment, and
return the success payload — any thrown failure lands in the shared
`catch` branch.  `now` is `new Date().getTime()`; `oGet` and `oPost` are
the upstream outcomes of the GET and the POST. -/
def analyze_and_comment_pr (owner repo : String) (pull_number : Int)
    (token : Option String) (now : Int)
    (oGet : FetchOutcome PullRequest) (oPost : FetchOutcome Comment) :
    List HttpRequest × ToolResult :=
  let (getReq, getRes) := getPullRequest owner repo pull_number token oGet
  match getRes with
  | .error e => ([getReq], errorResult e)
  | .ok pr =>
      let d := daysOld now pr.created_at.ms
      let authorLogin := resolveAuthor pr.user pr.author
      let report := analysisReport pr d authorLogin
      let (postReq, postRes) := postCommentOnPR owner repo pull_number report token oPost
      match postRes with
      | .error e => ([getReq, postReq], errorResult e)
      | .ok c =>
          ([getReq, postReq],
           { content := [⟨stringifyP 0 (analyzeSuccessJson pr c)⟩], isError := false })

/-! ## Launcher (run-mcp.js) -/

/-- The four environment values the launcher reads (run-mcp lines 4–7);
`none` models an unset variable. -/
structure LauncherEnv where
  PR_OWNER : Option String
  PR_REPO : Option String
  PR_NUMBER : Option String
  GITHUB_TOKEN : Option String

/-- JS whitespace for `Number()`'s trimming of its argument. -/
def jsWhitespace (c : Char) : Bool :=
  c = ' ' || c = '\t' || c = '\n' || c = '\r' || c = '\x0c' || c = '\x0b'

/-- Accumulate the value of a digit run; any non-digit makes the whole
string NaN. -/
def digitsVal (acc : Nat) : List Char → Option Nat
  | [] => some acc
  | c :: cs =>
      if c.isDigit then digitsVal (acc * 10 + (c.toNat - 48)) cs else none

/-- Parse an optionally signed decimal integer, as `Number` does on the
integer strings that occur here. -/
def parseDecInt : List Char → Option Int
  | [] => none
  | '-' :: cs => if cs = [] then none else (digitsVal 0 cs).map (fun n => -(n : Int))
  | '+' :: cs => if cs = [] then none else (digitsVal 0 cs).map (fun n => (n : Int))
  | cs => (digitsVal 0 cs).map (fun n => (n : Int))

/-- `Number(process.env.PR_NUMBER)`: `none` models NaN.  `Number` of an
unset variable is NaN; of a string that trims to empty it is `0`;
otherwise the trimmed string is parsed as a (decimal, optionally signed)
integer, anything unparsable being NaN.  (Fractional and exotic numeric
forms, which JS would also accept, do not occur for PR numbers and are
modelled as NaN.) -/
def jsNumber : Option String → Option Int
  | none => none
  | some s =>
      let t := ((s.data.dropWhile jsWhitespace).reverse.dropWhile jsWhitespace).reverse
      if t = [] then some 0 else parseDecInt t

/-- Truthiness of the parsed number: NaN and 0 are falsy. -/
def truthyNum : Option Int → Bool
  | none => false
  | some n => n != 0

/-- The JSON-RPC request object the launcher builds (run-mcp lines 22–35). -/
def launcherRequest (owner repo : String) (pullNumber : Int) (token : String) : Json :=
  Json.obj
    [("jsonrpc", Json.str "2.0"),
     ("id", Json.num 1),
     ("method", Json.str "tools.call"),
     ("params", Json.obj
       [("name", Json.str "analyze_and_comment_pr"),
        ("arguments", Json.obj
          [("owner", Json.str owner),
           ("repo", Json.str repo),
           ("pull_number", Json.num pullNumber),
           ("token", Json.str token)])])]

/-- What the launcher does: exit with a code (and a stderr diagnostic)
before spawning anything, or spawn the server child and write one line to
its stdin. -/
inductive LauncherResult where
  | exit (code : Nat) (diagnostic : String)
  | spawn (stdinLine : String)
deriving DecidableEq

/-- run-mcp lines 4–37: read the four environment values, print
`Missing environment variables` and exit 1 if any is falsy (the check at
lines 9–12 precedes the `spawn` at line 17), otherwise spawn the child
and write `JSON.stringify(request) + "\n"` to its stdin. -/
def runLauncher (env : LauncherEnv) : LauncherResult :=
  let prNumber := jsNumber env.PR_NUMBER
  if !truthyStr env.PR_OWNER || !truthyStr env.PR_REPO ||
     !truthyNum prNumber || !truthyStr env.GITHUB_TOKEN then
    .exit 1 "Missing environment variables"
  else
    .spawn
      (stringifyC
        (launcherRequest (env.PR_OWNER.getD "") (env.PR_REPO.getD "")
          (prNumber.getD 0) (env.GITHUB_TOKEN.getD "")) ++ "\n")

/-- Did an `await fetch` step fail, either by rejecting or by resolving to
a non-ok response?  Exactly the situations in which the client function
throws. -/
def fetchFailed (o : FetchOutcome α) : Bool :=
  match o with
  | .error _ => true
  | .ok r => !responseOk r

/-! ## Sample data used by the witnesses -/

/-- A concrete pull request used to instantiate theorems. -/
def samplePR : PullRequest :=
  { id := 7, number := 12, title := "Add feature", state := "open",
    user := some "alice", author := none,
    created_at := ⟨"2024-01-01T00:00:00Z", 1704067200000⟩,
    updated_at := ⟨"2024-01-02T00:00:00Z", 1704153600000⟩,
    html_url := "https://github.com/o/r/pull/12" }

/-- A concrete comment used to instantiate theorems. -/
def sampleComment : Comment :=
  { id := 99, created_at := "2024-01-03T00:00:00Z", user_login := "octocat" }

/-! ## Theorems -/

/-- A status of at least 400 makes `Response.ok` false. -/
theorem responseOk_eq_false_of_ge_400 {α : Type} (r : HttpResponse α)
    (h : 400 ≤ r.status) : responseOk r = false := by
  simp only [responseOk, Bool.and_eq_false_iff, decide_eq_false_iff_not, not_le]
  omega

/-- C2: `analyze_and_comment_pr` computes the pull request's age as the
floor of the elapsed milliseconds divided by 86 400 000: the computed
`daysOld` satisfies the floor characterization
`daysOld * 86400000 ≤ elapsed < (daysOld + 1) * 86400000`, and for a
`created_at` exactly 3 days and 2 hours before `now` it equals 3 (floor,
not round). -/
theorem C2_days_old_is_floor (now created : Int) :
    daysOld now created * 86400000 ≤ now - created ∧
    now - created < (daysOld now created + 1) * 86400000 ∧
    daysOld now (now - (3 * 86400000 + 2 * 3600000)) = 3 := by
  have hfd : ∀ a : Int, Int.fdiv a 86400000 = a / 86400000 := fun a =>
    Int.fdiv_eq_ediv a (by norm_num)
  have hconst : (1000 * 60 * 60 * 24 : Int) = 86400000 := by norm_num
  refine ⟨?_, ?_, ?_⟩
  · have h1 := Int.ediv_add_emod (now - created) 86400000
    have h2 := Int.emod_nonneg (now - created) (by norm_num : (86400000 : Int) ≠ 0)
    simp only [daysOld, hconst, hfd]
    omega
  · have h1 := Int.ediv_add_emod (now - created) 86400000
    have h3 := Int.emod_lt_of_pos (now - created)
      (by norm_num : (0 : Int) < 86400000)
    simp only [daysOld, hconst, hfd]
    omega
  · have harg : now - (now - (3 * 86400000 + 2 * 3600000)) = 266400000 := by ring
    simp only [daysOld, hconst, hfd, harg]
    omega

/-- C3: author resolution is first-non-empty-wins over
`user.login` then `author.login`: a non-empty `user.login` is used; else a
non-empty `author.login` is used (in particular, absent `user.login` with
`author.login = "bob"` resolves to `"bob"`); if both are absent (or
empty, which JS truthiness treats the same) the literal `"Unknown"` is
substituted; the result is never the empty string (and, being a `String`,
never null). -/
theorem C3_author_resolution (u a : Option String) :
    (∀ s, u = some s → s ≠ "" → resolveAuthor u a = s) ∧
    (truthyStr u = false → ∀ s, a = some s → s ≠ "" → resolveAuthor u a = s) ∧
    (truthyStr u = false → truthyStr a = false → resolveAuthor u a = "Unknown") ∧
    resolveAuthor none (some "bob") = "bob" ∧
    resolveAuthor u a ≠ "" := by
  refine ⟨?_, ?_, ?_, by decide, ?_⟩
  · rintro s rfl hs
    simp [resolveAuthor, truthyStr, hs]
  · rintro hu s rfl hs
    have ht : truthyStr (some s) = true := by simp [truthyStr, hs]
    simp [resolveAuthor, hu, ht]
  · intro hu ha
    simp [resolveAuthor, hu, ha]
  · rcases u with _ | s
    · rcases a with _ | t
      · simp [resolveAuthor, truthyStr]
      · rcases eq_or_ne t "" with rfl | ht
        · simp [resolveAuthor, truthyStr]
        · simp [resolveAuthor, truthyStr, ht]
    · rcases eq_or_ne s "" with rfl | hs
      · rcases a with _ | t
        · simp [resolveAuthor, truthyStr]
        · rcases eq_or_ne t "" with rfl | ht
          · simp [resolveAuthor, truthyStr]
          · simp [resolveAuthor, truthyStr, ht]
      · simp [resolveAuthor, truthyStr, hs]

/-- C3 witness: the three branches at concrete logins. -/
theorem C3_author_resolution_witness :
    resolveAuthor (some "alice") (some "bob") = "alice" ∧
    resolveAuthor none (some "bob") = "bob" ∧
    resolveAuthor none none = "Unknown" := by
  have h1 := C3_author_resolution (some "alice") (some "bob")
  have h2 := C3_author_resolution none (some "bob")
  have h3 := C3_author_resolution none none
  exact ⟨h1.1 "alice" rfl (by decide),
         h2.2.1 (by decide) "bob" rfl (by decide),
         h3.2.2.1 (by decide) (by decide)⟩

/-- C6: if any of the four launcher environment values is missing, or
`PR_NUMBER` fails to parse as a number (`jsNumber` returns `none`, i.e.
NaN), the launcher prints the diagnostic and exits with status 1; the
`exit` result precedes any `spawn`, so no subprocess is created. -/
theorem C6_launcher_exits_on_missing_env (env : LauncherEnv)
    (h : env.PR_OWNER = none ∨ env.PR_REPO = none ∨ env.PR_NUMBER = none ∨
         env.GITHUB_TOKEN = none ∨ jsNumber env.PR_NUMBER = none) :
    runLauncher env = .exit 1 "Missing environment variables" := by
  rcases h with h | h | h | h | h
  · simp [runLauncher, truthyStr, h]
  · simp [runLauncher, truthyStr, h]
  · simp [runLauncher, jsNumber, truthyNum, h]
  · simp [runLauncher, truthyStr, h]
  · simp [runLauncher, truthyNum, h]

/-- C6 witness: the empty environment exits with status 1. -/
theorem C6_launcher_exits_on_missing_env_witness :
    runLauncher ⟨none, none, none, none⟩ =
      .exit 1 "Missing environment variables" :=
  C6_launcher_exits_on_missing_env ⟨none, none, none, none⟩ (Or.inl rfl)

/-- C10: the launcher's validity check tests truthiness of the parsed
values, so it also exits with status 1 (spawning nothing) when
`PR_NUMBER` parses to the number 0, or when any of the four environment
values is present but the empty string. -/
theorem C10_launcher_exits_on_falsy_env (env : LauncherEnv)
    (h : jsNumber env.PR_NUMBER = some 0 ∨ env.PR_OWNER = some "" ∨
         env.PR_REPO = some "" ∨ env.PR_NUMBER = some "" ∨
         env.GITHUB_TOKEN = some "") :
    runLauncher env = .exit 1 "Missing environment variables" := by
  rcases h with h | h | h | h | h
  · simp [runLauncher, truthyNum, h]
  · simp [runLauncher, truthyStr, h]
  · simp [runLauncher, truthyStr, h]
  · have h0 : jsNumber env.PR_NUMBER = some 0 := by rw [h]; decide
    simp [runLauncher, truthyNum, h0]
  · simp [runLauncher, truthyStr, h]

/-- C10 witness: `PR_NUMBER = "0"` (which parses to the number 0) exits
with status 1 even though all four values are present. -/
theorem C10_launcher_exits_on_falsy_env_witness :
    runLauncher ⟨some "octo", some "hub", some "0", some "tok"⟩ =
      .exit 1 "Missing environment variables" :=
  C10_launcher_exits_on_falsy_env ⟨some "octo", some "hub", some "0", some "tok"⟩
    (Or.inl (by decide))

/-- C7: with all four environment values valid, the launcher writes to the
child's stdin exactly the one-line JSON-RPC request
`{"jsonrpc":"2.0","id":1,"method":"tools.call","params":{"name":
"analyze_and_comment_pr","arguments":{owner, repo, pull_number, token}}}`
terminated by a newline, with the values read from the environment. -/
theorem C7_launcher_request_line (owner repo numStr tok : String) (n : Int)
    (howner : owner ≠ "") (hrepo : repo ≠ "") (htok : tok ≠ "")
    (hnum : jsNumber (some numStr) = some n) (hn : n ≠ 0) :
    runLauncher ⟨some owner, some repo, some numStr, some tok⟩ =
      .spawn
        (stringifyC
          (Json.obj
            [("jsonrpc", Json.str "2.0"),
             ("id", Json.num 1),
             ("method", Json.str "tools.call"),
             ("params", Json.obj
               [("name", Json.str "analyze_and_comment_pr"),
                ("arguments", Json.obj
                  [("owner", Json.str owner),
                   ("repo", Json.str repo),
                   ("pull_number", Json.num n),
                   ("token", Json.str tok)])])]) ++ "\n") := by
  have ho : truthyStr (some owner) = true := by simp [truthyStr, howner]
  have hr : truthyStr (some repo) = true := by simp [truthyStr, hrepo]
  have ht : truthyStr (some tok) = true := by simp [truthyStr, htok]
  have hn' : truthyNum (some n) = true := by simp [truthyNum, hn]
  simp [runLauncher, ho, hr, ht, hnum, hn', launcherRequest]

/-- C7 witness: a concrete valid environment produces exactly the expected
serialized line. -/
theorem C7_launcher_request_line_witness :
    runLauncher ⟨some "octo", some "hub", some "42", some "t0k"⟩ =
      .spawn
        (stringifyC
          (Json.obj
            [("jsonrpc", Json.str "2.0"),
             ("id", Json.num 1),
             ("method", Json.str "tools.call"),
             ("params", Json.obj
               [("name", Json.str "analyze_and_comment_pr"),
                ("arguments", Json.obj
                  [("owner", Json.str "octo"),
                   ("repo", Json.str "hub"),
                   ("pull_number", Json.num 42),
                   ("token", Json.str "t0k")])])]) ++ "\n") :=
  C7_launcher_request_line "octo" "hub" "42" "t0k" 42
    (by decide) (by decide) (by decide) (by decide) (by decide)

/-- C1: for every tool operation and every upstream response with status
≥ 400 (hence not ok), the operation returns exactly one error-flagged
Invocation Result — a singleton text content carrying the numeric status
and status text, with `isError := true` — and, being a total function
whose source wraps its body in `try`/`catch`, never throws past its
boundary.  For `analyze_and_comment_pr` both failure points are covered:
a failing GET, and a failing POST after a successful GET. -/
theorem C1_http_error_yields_error_result
    (owner repo : String) (pull_number : Int) (token : Option String)
    (body : String) (now : Int)
    (rJ : HttpResponse Json) (rP : HttpResponse PullRequest)
    (rC : HttpResponse Comment) (rOk : HttpResponse PullRequest)
    (hJ : 400 ≤ rJ.status) (hP : 400 ≤ rP.status) (hC : 400 ≤ rC.status)
    (hOk : responseOk rOk = true) :
    (get_prs_of_repo owner repo token (.ok rJ)).2 =
      { content := [⟨"Error: " ++
          ("GitHub API error: " ++ toString rJ.status ++ " " ++ rJ.statusText)⟩],
        isError := true } ∧
    (get_pr owner repo pull_number token (.ok rP)).2 =
      { content := [⟨"Error: " ++
          ("GitHub API error: " ++ toString rP.status ++ " " ++ rP.statusText)⟩],
        isError := true } ∧
    (post_comment_on_pr owner repo pull_number body token (.ok rC)).2 =
      { content := [⟨"Error: " ++
          ("Failed to post comment: " ++ toString rC.status ++ " " ++ rC.statusText)⟩],
        isError := true } ∧
    (analyze_and_comment_pr owner repo pull_number token now (.ok rP) (.ok rC)).2 =
      { content := [⟨"Error: " ++
          ("GitHub API error: " ++ toString rP.status ++ " " ++ rP.statusText)⟩],
        isError := true } ∧
    (analyze_and_comment_pr owner repo pull_number token now (.ok rOk) (.ok rC)).2 =
      { content := [⟨"Error: " ++
          ("Failed to post comment: " ++ toString rC.status ++ " " ++ rC.statusText)⟩],
        isError := true } := by
  have hJ' := responseOk_eq_false_of_ge_400 rJ hJ
  have hP' := responseOk_eq_false_of_ge_400 rP hP
  have hC' := responseOk_eq_false_of_ge_400 rC hC
  refine ⟨?_, ?_, ?_, ?_, ?_⟩ <;>
    simp [get_prs_of_repo, get_pr, post_comment_on_pr, analyze_and_comment_pr,
      getPullRequests, getPullRequest, postCommentOnPR, fetchResult,
      hJ', hP', hC', hOk, errorResult]

/-- C1 witness: concrete 404 and 500 responses produce the error-flagged
results, and a 200 GET followed by a 500 POST produces the POST's. -/
theorem C1_http_error_yields_error_result_witness :
    (get_prs_of_repo "o" "r" none (.ok ⟨404, "Not Found", Json.arr []⟩)).2 =
      { content := [⟨"Error: GitHub API error: 404 Not Found"⟩], isError := true } ∧
    (get_pr "o" "r" 1 none (.ok ⟨404, "Not Found", samplePR⟩)).2 =
      { content := [⟨"Error: GitHub API error: 404 Not Found"⟩], isError := true } ∧
    (post_comment_on_pr "o" "r" 1 "hi" none
        (.ok ⟨500, "Internal Server Error", sampleComment⟩)).2 =
      { content := [⟨"Error: Failed to post comment: 500 Internal Server Error"⟩],
        isError := true } ∧
    (analyze_and_comment_pr "o" "r" 1 none 0 (.ok ⟨404, "Not Found", samplePR⟩)
        (.ok ⟨500, "Internal Server Error", sampleComment⟩)).2 =
      { content := [⟨"Error: GitHub API error: 404 Not Found"⟩], isError := true } ∧
    (analyze_and_comment_pr "o" "r" 1 none 0 (.ok ⟨200, "OK", samplePR⟩)
        (.ok ⟨500, "Internal Server Error", sampleComment⟩)).2 =
      { content := [⟨"Error: Failed to post comment: 500 Internal Server Error"⟩],
        isError := true } := by
  have h := C1_http_error_yields_error_result "o" "r" 1 none "hi" 0
    ⟨404, "Not Found", Json.arr []⟩ ⟨404, "Not Found", samplePR⟩
    ⟨500, "Internal Server Error", sampleComment⟩ ⟨200, "OK", samplePR⟩
    (by decide) (by decide) (by decide) (by decide)
  exact h

/-- C4: `get_prs_of_repo` issues exactly one GET to
`{base}/repos/{owner}/{repo}/pulls` and, on a successful (ok) response,
returns the response's JSON serialized as a single text payload with no
error flag. -/
theorem C4_get_prs_of_repo_lists (owner repo : String) (token : Option String)
    (r : HttpResponse Json) (h : responseOk r = true) :
    (get_prs_of_repo owner repo token (.ok r)).1 =
      [getPullRequestsRequest owner repo token] ∧
    (getPullRequestsRequest owner repo token).method = "GET" ∧
    (getPullRequestsRequest owner repo token).url =
      "https://api.github.com/repos/" ++ owner ++ "/" ++ repo ++ "/pulls" ∧
    (get_prs_of_repo owner repo token (.ok r)).2 =
      { content := [⟨stringifyP 0 r.body⟩], isError := false } := by
  refine ⟨?_, ?_, ?_, ?_⟩
  · simp [get_prs_of_repo, getPullRequests]
  · simp [getPullRequestsRequest]
  · simp [getPullRequestsRequest, GITHUB_URL]
  · simp [get_prs_of_repo, getPullRequests, fetchResult, h]

/-- C4 witness: a concrete ok response with a two-element array body. -/
theorem C4_get_prs_of_repo_lists_witness :
    (get_prs_of_repo "o" "r" none
        (.ok ⟨200, "OK", Json.arr [Json.num 1, Json.num 2]⟩)).1 =
      [getPullRequestsRequest "o" "r" none] ∧
    (getPullRequestsRequest "o" "r" none).method = "GET" ∧
    (getPullRequestsRequest "o" "r" none).url =
      "https://api.github.com/repos/o/r/pulls" ∧
    (get_prs_of_repo "o" "r" none
        (.ok ⟨200, "OK", Json.arr [Json.num 1, Json.num 2]⟩)).2 =
      { content := [⟨stringifyP 0 (Json.arr [Json.num 1, Json.num 2])⟩],
        isError := false } := by
  have h := C4_get_prs_of_repo_lists "o" "r" none
    ⟨200, "OK", Json.arr [Json.num 1, Json.num 2]⟩ (by decide)
  exact h

/-- C5 counterexample: the claim's "Authorization present iff a token
argument is supplied" is false — a supplied empty-string token is falsy
under `if (token)`, so no Authorization header is added on any of the
three operations. -/
theorem C5_counterexample :
    (some "" : Option String).isSome = true ∧
    (getPullRequestsRequest "o" "r" (some "")).headers.lookup "Authorization" = none ∧
    (getPullRequestRequest "o" "r" 1 (some "")).headers.lookup "Authorization" = none ∧
    (postCommentOnPRRequest "o" "r" 1 "hello" (some "")).headers.lookup
      "Authorization" = none := by
  decide

/-- C5 (amended): every one of the three REST client operations sets the
fixed versioned-JSON Accept header and the fixed User-Agent header, and
an `token {token}` Authorization header is present if and only if a
*non-empty* token is supplied (a supplied empty string, being falsy, adds
none); `post_comment_on_pr` with body `"hello"` and no token issues
exactly one POST to the comments endpoint with JSON body
`{"body":"hello"}` and no Authorization header. -/
theorem C5_headers_and_hello_post (owner repo : String) (n : Int)
    (token : Option String) (o : FetchOutcome Comment) :
    ((getPullRequestsRequest owner repo token).headers.lookup "Accept" =
        some "application/vnd.github.v3+json" ∧
     (getPullRequestsRequest owner repo token).headers.lookup "User-Agent" =
        some "GitHub-API-Client" ∧
     (getPullRequestsRequest owner repo token).headers.lookup "Authorization" =
        (if truthyStr token then some ("token " ++ token.getD "") else none)) ∧
    ((getPullRequestRequest owner repo n token).headers.lookup "Accept" =
        some "application/vnd.github.v3+json" ∧
     (getPullRequestRequest owner repo n token).headers.lookup "User-Agent" =
        some "GitHub-API-Client" ∧
     (getPullRequestRequest owner repo n token).headers.lookup "Authorization" =
        (if truthyStr token then some ("token " ++ token.getD "") else none)) ∧
    (∀ body : String,
     (postCommentOnPRRequest owner repo n body token).headers.lookup "Accept" =
        some "application/vnd.github.v3+json" ∧
     (postCommentOnPRRequest owner repo n body token).headers.lookup "User-Agent" =
        some "GitHub-API-Client" ∧
     (postCommentOnPRRequest owner repo n body token).headers.lookup "Authorization" =
        (if truthyStr token then some ("token " ++ token.getD "") else none)) ∧
    ((post_comment_on_pr owner repo n "hello" none o).1 =
        [postCommentOnPRRequest owner repo n "hello" none] ∧
     (postCommentOnPRRequest owner repo n "hello" none).method = "POST" ∧
     (postCommentOnPRRequest owner repo n "hello" none).url =
        "https://api.github.com/repos/" ++ owner ++ "/" ++ repo ++ "/issues/" ++
          toString n ++ "/comments" ∧
     (postCommentOnPRRequest owner repo n "hello" none).body =
        some "\x7b\"body\":\"hello\"\x7d" ∧
     (postCommentOnPRRequest owner repo n "hello" none).headers.lookup
        "Authorization" = none) := by
  have hlook : ∀ token : Option String,
      (baseHeaders ++ authHeader token).lookup "Authorization" =
        (if truthyStr token then some ("token " ++ token.getD "") else none) := by
    intro tk
    rcases tk with _ | t
    · decide
    · rcases eq_or_ne t "" with rfl | ht
      · decide
      · have : (t != "") = true := by simp [ht]
        simp [baseHeaders, authHeader, truthyStr, this, List.lookup]
  refine ⟨⟨?_, ?_, ?_⟩, ⟨?_, ?_, ?_⟩, ?_, ⟨?_, ?_, ?_, ?_, ?_⟩⟩
  · rcases token with _ | t <;> simp [getPullRequestsRequest, baseHeaders, authHeader, List.lookup]
  · rcases token with _ | t <;> simp [getPullRequestsRequest, baseHeaders, authHeader, List.lookup]
  · simpa [getPullRequestsRequest] using hlook token
  · rcases token with _ | t <;> simp [getPullRequestRequest, baseHeaders, authHeader, List.lookup]
  · rcases token with _ | t <;> simp [getPullRequestRequest, baseHeaders, authHeader, List.lookup]
  · simpa [getPullRequestRequest] using hlook token
  · intro body
    refine ⟨?_, ?_, ?_⟩
    · rcases token with _ | t <;> simp [postCommentOnPRRequest, authHeader, List.lookup]
    · rcases token with _ | t <;> simp [postCommentOnPRRequest, authHeader, List.lookup]
    · rcases token with _ | t
      · simp [postCommentOnPRRequest, authHeader, truthyStr, List.lookup]
      · rcases eq_or_ne t "" with rfl | ht
        · simp [postCommentOnPRRequest, authHeader, truthyStr, List.lookup]
        · have : (t != "") = true := by simp [ht]
          simp [postCommentOnPRRequest, authHeader, truthyStr, this, List.lookup]
  · simp [post_comment_on_pr, postCommentOnPR]
  · simp [postCommentOnPRRequest]
  · simp [postCommentOnPRRequest, GITHUB_URL]
  · simp [postCommentOnPRRequest]
    decide
  · simp [postCommentOnPRRequest, authHeader, List.lookup]

/-- C8: on a successful upstream POST, `post_comment_on_pr` returns a
single non-error text payload serializing
`{success: true, comment: {id, created_at, author}, message}`, with
`id`, `created_at` and `author` taken from the upstream comment (the
author from its user login). -/
theorem C8_post_comment_success (owner repo : String) (n : Int) (body : String)
    (token : Option String) (r : HttpResponse Comment) (h : responseOk r = true) :
    (post_comment_on_pr owner repo n body token (.ok r)).2 =
      { content := [⟨stringifyP 0 (Json.obj
          [("success", Json.bool true),
           ("comment", Json.obj
             [("id", Json.num r.body.id),
              ("created_at", Json.str r.body.created_at),
              ("author", Json.str r.body.user_login)]),
           ("message", Json.str "Comment successfully posted on PR")])⟩],
        isError := false } ∧
    (post_comment_on_pr owner repo n body token (.ok r)).2.content.length = 1 := by
  constructor <;>
    simp [post_comment_on_pr, postCommentOnPR, fetchResult, h, postCommentSuccessJson]

/-- C8 witness: a concrete 201-created response. -/
theorem C8_post_comment_success_witness :
    (post_comment_on_pr "o" "r" 1 "hi" none (.ok ⟨201, "Created", sampleComment⟩)).2 =
      { content := [⟨stringifyP 0 (Json.obj
          [("success", Json.bool true),
           ("comment", Json.obj
             [("id", Json.num 99),
              ("created_at", Json.str "2024-01-03T00:00:00Z"),
              ("author", Json.str "octocat")]),
           ("message", Json.str "Comment successfully posted on PR")])⟩],
        isError := false } ∧
    (post_comment_on_pr "o" "r" 1 "hi" none
        (.ok ⟨201, "Created", sampleComment⟩)).2.content.length = 1 := by
  have h := C8_post_comment_success "o" "r" 1 "hi" none
    ⟨201, "Created", sampleComment⟩ (by decide)
  exact h

/-- C9: `analyze_and_comment_pr` posts only after the GET succeeded — when
fetching the PR fails (rejected fetch or non-ok response), the only
request issued is the GET, so no comment is posted, and the result is
error-flagged. -/
theorem C9_no_post_when_get_fails (owner repo : String) (n : Int)
    (token : Option String) (now : Int)
    (oGet : FetchOutcome PullRequest) (oPost : FetchOutcome Comment)
    (h : fetchFailed oGet = true) :
    (analyze_and_comment_pr owner repo n token now oGet oPost).1 =
      [getPullRequestRequest owner repo n token] ∧
    (∀ q ∈ (analyze_and_comment_pr owner repo n token now oGet oPost).1,
      q.method = "GET") ∧
    (analyze_and_comment_pr owner repo n token now oGet oPost).2.isError = true := by
  cases oGet with
  | error e =>
      simp [analyze_and_comment_pr, getPullRequest, fetchResult, errorResult,
        getPullRequestRequest]
  | ok r =>
      have hr : responseOk r = false := by simpa [fetchFailed] using h
      simp [analyze_and_comment_pr, getPullRequest, fetchResult, hr, errorResult,
        getPullRequestRequest]

/-- C9 witness: a rejected fetch issues no POST and returns an error. -/
theorem C9_no_post_when_get_fails_witness :
    (analyze_and_comment_pr "o" "r" 1 none 0 (.error "network down")
        (.ok ⟨201, "Created", sampleComment⟩)).1 =
      [getPullRequestRequest "o" "r" 1 none] ∧
    (∀ q ∈ (analyze_and_comment_pr "o" "r" 1 none 0 (.error "network down")
        (.ok ⟨201, "Created", sampleComment⟩)).1, q.method = "GET") ∧
    (analyze_and_comment_pr "o" "r" 1 none 0 (.error "network down")
        (.ok ⟨201, "Created", sampleComment⟩)).2.isError = true := by
  have h := C9_no_post_when_get_fails "o" "r" 1 none 0 (.error "network down")
    (.ok ⟨201, "Created", sampleComment⟩) (by decide)
  exact h

end GithubCheck
